import Mathlib

/-
Verification of the conversational orchestration core of the
acai-travel-tech-challenge repository: the tool registry
(internal/tools/tools.go), the assistant's Title and Reply operations
(internal/chat/assistant/assistant.go), and the StartConversation
coordinator merge (documented snippet in the repository README).

Modelling conventions:
- Go strings are modelled as Lean `String` (sequences of characters).
  Go's byte-level `len`/slicing coincides with the character level on
  ASCII data; the one byte-level operation, `title[:80]`, is modelled
  at character granularity.
- The OpenAI chat-completion backend is an oracle: a function from the
  call index (the number of completed backend calls so far), the message
  list and the advertised tool catalog to either an error or a response.
- JSON payloads that the core never inspects (tool parameter schemas,
  parsed argument maps) are abstracted to opaque payload types; the JSON
  argument parser (encoding/json.Unmarshal) is likewise an oracle
  function from the raw argument string to a parse result.
-/

namespace Acai

/-- A message role; per the repository data model a message is from the
system, the user, the assistant, or a tool. -/
inductive Role where
  | system
  | user
  | assistant
  | tool
deriving DecidableEq, Repr

/-- A conversation message: a role, text content and (for tool-originated
messages) the correlation id of the ToolCall that produced it. -/
structure Message where
  role : Role
  content : String
  toolCallId : String := ""
deriving DecidableEq, Repr

/-- A stored conversation: opaque id, title, ordered message list. -/
structure Conversation where
  id : String := ""
  title : String := ""
  messages : List Message
deriving DecidableEq, Repr

/-- A model-issued tool invocation request: correlation id, capability
name, raw (unparsed JSON) argument payload. -/
structure ToolCall where
  id : String
  name : String
  arguments : String
deriving DecidableEq, Repr

/-- Parsed tool arguments (Go `map[string]any`); the orchestrator never
inspects the parsed values, so they are kept as an opaque association
payload. -/
abbrev Args : Type := List (String × String)

/-- A JSON parameter schema (Go `map[string]any`); opaque payload, the
orchestrator only forwards it to the backend. -/
abbrev Schema : Type := String

/-- A tool capability (interface Tool in internal/tools/tools.go):
Name, Description, ParametersSchema and Call. The Call method is the
tool's externally observable behaviour, modelled as a function from
parsed arguments to a result string or an error string. -/
structure Tool where
  name : String
  description : String
  parametersSchema : Schema
  call : Args → Except String String

/-- The registry is the ordered list of registered tools
(`var registry []Tool`). -/
abbrev Registry : Type := List Tool

/-- `Register` appends a tool to the registry (Go `append(registry, t)`). -/
def Register (registry : Registry) (t : Tool) : Registry :=
  registry ++ [t]

/-- `AllTools` returns all registered tools in stored order. -/
def AllTools (registry : Registry) : List Tool :=
  registry

/-- `FindByName` scans the registry in stored order and returns the first
tool whose Name equals the given name exactly, or `none` (Go `nil`). -/
def FindByName (registry : Registry) (name : String) : Option Tool :=
  match registry with
  | [] => none
  | t :: ts => if t.name = name then some t else FindByName ts name

/-- An outgoing chat message parameter
(openai.ChatCompletionMessageParamUnion): SystemMessage, UserMessage,
AssistantMessage, the assistant tool-call message re-sent via
`message.ToParam()`, and ToolMessage (content plus correlation id). -/
inductive ChatParam where
  | system (content : String)
  | user (content : String)
  | assistant (content : String)
  | assistantToolCalls (content : String) (toolCalls : List ToolCall)
  | tool (content : String) (toolCallId : String)
deriving DecidableEq, Repr

/-- The message carried by one backend choice: its text content and the
tool calls it requests. -/
structure ChatMessage where
  content : String
  toolCalls : List ToolCall
deriving DecidableEq, Repr

/-- A backend completion response: the list of choices (each reduced to
its message, the only field the core reads). -/
structure ChatResponse where
  choices : List ChatMessage
deriving DecidableEq, Repr

/-- A model-visible function declaration built from a tool capability
(openai.FunctionDefinitionParam). -/
structure FunctionDef where
  name : String
  description : String
  parameters : Schema

/-- The tool catalog advertised to the backend, built from `AllTools`. -/
def toolDefs (registry : Registry) : List FunctionDef :=
  (AllTools registry).map (fun t =>
    { name := t.name, description := t.description,
      parameters := t.parametersSchema })

/-- The model backend oracle for Reply: call index, message list and tool
catalog to response or error. -/
abbrev Backend : Type :=
  Nat → List ChatParam → List FunctionDef → Except String ChatResponse

/-- The model backend oracle for Title (a single call without tools). -/
abbrev TitleBackend : Type :=
  List ChatParam → Except String ChatResponse

/-- The JSON argument parser oracle (encoding/json.Unmarshal into
`map[string]any`): raw argument string to parsed arguments or a parse
error. -/
abbrev Parser : Type := String → Except String Args

/-- Whether a character is whitespace for Go's `unicode.IsSpace`
(as used by strings.TrimSpace): the Latin-1 white space characters plus
the Unicode space separators. -/
def goIsSpace (c : Char) : Bool :=
  c = '\t' || c = '\n' || c = Char.ofNat 11 || c = Char.ofNat 12 ||
  c = '\r' || c = ' ' || c = Char.ofNat 0x85 || c = Char.ofNat 0xA0 ||
  c = Char.ofNat 0x1680 ||
  (Char.ofNat 0x2000 ≤ c && c ≤ Char.ofNat 0x200A) ||
  c = Char.ofNat 0x2028 || c = Char.ofNat 0x2029 ||
  c = Char.ofNat 0x202F || c = Char.ofNat 0x205F || c = Char.ofNat 0x3000

/-- Drop the characters satisfying `p` from both ends of a list. -/
def trimBothBy (p : Char → Bool) (l : List Char) : List Char :=
  ((l.dropWhile p).reverse.dropWhile p).reverse

/-- Go `strings.TrimSpace`. -/
def goTrimSpace (s : String) : String :=
  String.mk (trimBothBy goIsSpace s.toList)

/-- Go `strings.ReplaceAll(s, "\n", " ")`: since the pattern is a single
character, this is a character map. -/
def replaceNewlines (s : String) : String :=
  String.mk (s.toList.map (fun c => if c = '\n' then ' ' else c))

/-- The cutset of `strings.Trim(title, " \t\r\n-\"'")`: space, tab,
carriage return, newline, dash, double quote (34), single quote (39). -/
def titleCutset : List Char :=
  [' ', '\t', '\r', '\n', '-', Char.ofNat 34, Char.ofNat 39]

/-- Go `strings.Trim(s, cutset)`: remove leading and trailing characters
belonging to the cutset. -/
def goTrim (s : String) (cutset : List Char) : String :=
  String.mk (trimBothBy (fun c => cutset.contains c) s.toList)

/-- The system instruction of the Title operation. -/
def titlePrompt : String :=
  "You generate concise conversation titles.\n\n\tRules:\n\t- Output ONLY a short noun phrase summarizing the user's first message.\n\t- Do NOT answer the question.\n\t- Do NOT include quotes.\n\t- Maximum 6 words."

/-- The selection condition of Title's loop: Role user and non-blank
content (TrimSpace of the content differs from the empty string). -/
def isMeaningfulUser (m : Message) : Bool :=
  m.role = Role.user && goTrimSpace m.content ≠ ""

/-- The scan of Title's selection loop: the content of the first message
with Role user and non-blank content, or `""` when the loop finds none
(the zero value of the Go `firstUserMessage` variable). -/
def firstUserScan : List Message → String
  | [] => ""
  | m :: rest =>
      if isMeaningfulUser m then m.content
      else firstUserScan rest

/-- The text Title selects as the user message of its backend call:
the scan's result, falling back to the first message's content when the
scan left the variable empty. -/
def selectFirstUserMessage (msgs : List Message) : String :=
  let firstUserMessage := firstUserScan msgs
  if firstUserMessage = "" then ((msgs.head?).map Message.content).getD ""
  else firstUserMessage

/-- The post-processing Title applies to the raw backend text: collapse
newlines to spaces, trim the cutset from both ends, fall back to
"New conversation" when empty, truncate to 80 characters. -/
def postProcessTitle (raw : String) : String :=
  if goTrim (replaceNewlines raw) titleCutset = "" then "New conversation"
  else if (goTrim (replaceNewlines raw) titleCutset).length > 80 then
    String.mk ((goTrim (replaceNewlines raw) titleCutset).toList.take 80)
  else goTrim (replaceNewlines raw) titleCutset

/-- The Title operation (func (a *Assistant) Title): empty conversation
fallback, first-user-message selection, one constrained backend call,
fallbacks on backend failure or zero choices, post-processing. All paths
return a nil error, hence every result is `.ok`. -/
def Title (backend : TitleBackend) (conv : Conversation) :
    Except String String :=
  if conv.messages.length = 0 then .ok "An empty conversation"
  else
    let firstUserMessage := selectFirstUserMessage conv.messages
    match backend [ChatParam.system titlePrompt,
                   ChatParam.user firstUserMessage] with
    | .error _ => .ok "New conversation"
    | .ok resp =>
        match resp.choices with
        | [] => .ok "New conversation"
        | choice :: _ => .ok (postProcessTitle choice.content)

/-- The system instruction of the Reply operation. -/
def replyPrompt : String :=
  "You are a helpful, concise AI assistant. Provide accurate, safe, and clear responses."

/-- The initial message list Reply builds: the system instruction, then
each conversation message role-mapped by the switch — user to
UserMessage, assistant to AssistantMessage; messages with any other role
fall through the switch and are skipped. -/
def initialMsgs (conv : Conversation) : List ChatParam :=
  conv.messages.foldl
    (fun msgs m =>
      match m.role with
      | Role.user => msgs ++ [ChatParam.user m.content]
      | Role.assistant => msgs ++ [ChatParam.assistant m.content]
      | _ => msgs)
    [ChatParam.system replyPrompt]

/-- The tool message produced for one ToolCall of a round: unknown tool,
argument-parse failure, tool invocation error, or success — in every
case a single ToolMessage carrying the call's correlation id. -/
def toolResult (parse : Parser) (registry : Registry) (call : ToolCall) :
    ChatParam :=
  match FindByName registry call.name with
  | none => ChatParam.tool ("unknown tool: " ++ call.name) call.id
  | some t =>
      match parse call.arguments with
      | .error e =>
          ChatParam.tool ("failed to parse tool arguments: " ++ e) call.id
      | .ok args =>
          match t.call args with
          | .error e => ChatParam.tool ("tool error: " ++ e) call.id
          | .ok out => ChatParam.tool out call.id

/-- Processing of one ToolCall in the round's dispatch loop: append its
tool message to the running message list. -/
def processCall (parse : Parser) (registry : Registry)
    (msgs : List ChatParam) (call : ToolCall) : List ChatParam :=
  msgs ++ [toolResult parse registry call]

/-- The bounded round loop of Reply (`for i := 0; i < 15; i++`), with the
remaining fuel and the index of the next backend call made explicit:
fuel exhausted means the Go loop fell through to the final error. -/
def replyLoop (backend : Backend) (parse : Parser) (registry : Registry) :
    Nat → Nat → List ChatParam → Except String String
  | 0, _, _ => .error "too many tool calls, unable to generate reply"
  | fuel + 1, round, msgs =>
      match backend round msgs (toolDefs registry) with
      | .error e => .error e
      | .ok resp =>
          match resp.choices with
          | [] => .error "no choices returned by OpenAI"
          | choice :: _ =>
              if choice.toolCalls.length = 0 then .ok choice.content
              else
                let msgs := msgs ++
                  [ChatParam.assistantToolCalls choice.content
                    choice.toolCalls]
                let msgs :=
                  choice.toolCalls.foldl (processCall parse registry) msgs
                replyLoop backend parse registry fuel (round + 1) msgs

/-- The Reply operation (func (a *Assistant) Reply): empty-conversation
guard, initial message list, tool catalog, then at most 15 rounds. -/
def Reply (backend : Backend) (parse : Parser) (registry : Registry)
    (conv : Conversation) : Except String String :=
  if conv.messages.length = 0 then .error "conversation has no messages"
  else replyLoop backend parse registry 15 0 (initialMsgs conv)

/-- The title the StartConversation coordinator adopts from the Title
branch's outcome: any error or blank result becomes the fixed fallback
label (the title goroutine of the README snippet). -/
def mergedTitle (titleRes : Except String String) : String :=
  match titleRes with
  | .error _ => "Untitled conversation"
  | .ok title =>
      if goTrimSpace title = "" then "Untitled conversation" else title

/-- A transport-level error as the coordinator surfaces it: an error code
and the wrapped message. -/
structure TwirpError where
  code : String
  msg : String
deriving DecidableEq, Repr

/-- `twirp.InternalErrorWith(err)`: wrap an error under the internal
error code. -/
def internalErrorWith (e : String) : TwirpError :=
  { code := "internal", msg := e }

/-- The StartConversation coordinator's merge of the two branch outcomes
over the conversation snapshot, per the README snippet: reply failure
aborts with an internal error before any mutation or write, otherwise the
merged title is applied. Modelled from the spec: the success path then
appends the assistant message carrying the reply text and hands the
conversation to persistence (§4.4 of the design; the surrounding
StartConversation function body outside the snippet is not in the
sources). An `.error` result therefore means nothing is persisted. -/
def startConversation (titleRes replyRes : Except String String)
    (conv : Conversation) : Except TwirpError Conversation :=
  let title := mergedTitle titleRes
  match replyRes with
  | .error e => .error (internalErrorWith e)
  | .ok reply =>
      .ok { conv with
            title := title,
            messages := conv.messages ++
              [{ role := Role.assistant, content := reply }] }

/-- The initial-list construction as the specification words it: the
system instruction followed by ALL prior conversation messages in order,
role-mapped, with tool messages included verbatim (as tool messages
carrying their correlation ids). Stated for comparison with
`initialMsgs`, the construction the code performs. -/
def initialMsgsClaim (conv : Conversation) : List ChatParam :=
  ChatParam.system replyPrompt ::
  conv.messages.map (fun m =>
    match m.role with
    | Role.user => ChatParam.user m.content
    | Role.assistant => ChatParam.assistant m.content
    | Role.tool => ChatParam.tool m.content m.toolCallId
    | Role.system => ChatParam.system m.content)

/-- The input-selection rule as the specification words it: the content
of the first message with Role user and non-blank content, scanning in
order; if none matches, the very first message's content. Stated for
comparison with `selectFirstUserMessage`, the selection the code
performs. -/
def selectFirstUserMessageSpec (msgs : List Message) : String :=
  match msgs.find? isMeaningfulUser with
  | some m => m.content
  | none => ((msgs.head?).map Message.content).getD ""

/-- The correlation id carried by an outgoing message, when it is a tool
message. -/
def correlId : ChatParam → Option String
  | ChatParam.tool _ toolCallId => some toolCallId
  | _ => none

/- Concrete fixtures used by witness and counterexample theorems. -/

/-- A conversation holding a single user message. -/
def convW : Conversation := { messages := [{ role := Role.user, content := "hi" }] }

/-- A conversation holding a user message followed by a tool message. -/
def convToolW : Conversation :=
  { messages := [{ role := Role.user, content := "hi" },
                 { role := Role.tool, content := "result", toolCallId := "call-1" }] }

/-- An argument parser that fails on the payload "bad" and otherwise
returns an empty mapping. -/
def parserW : Parser :=
  fun s => if s = "bad" then .error "bad json" else .ok []

/-- A tool that always succeeds with "42". -/
def toolOkW : Tool :=
  { name := "adder", description := "adds", parametersSchema := "s",
    call := fun _ => .ok "42" }

/-- A tool whose invocation always fails. -/
def toolErrW : Tool :=
  { name := "boomer", description := "fails", parametersSchema := "s",
    call := fun _ => .error "boom" }

/-- A registry holding the two fixture tools. -/
def registryW : Registry := Register (Register [] toolOkW) toolErrW

/-- A backend that always requests one tool call. -/
def backendLoopW : Backend :=
  fun _ _ _ => .ok { choices := [{ content := "", toolCalls := [{ id := "id1", name := "t", arguments := "x" }] }] }

/-- A backend agreeing with `backendLoopW` on the first 15 calls and
failing afterwards. -/
def backendLateW : Backend :=
  fun i ms td => if i < 15 then backendLoopW i ms td else .error "late"

/-- A backend that answers immediately with an empty-content,
tool-call-free message. -/
def backendEmptyReplyW : Backend :=
  fun _ _ _ => .ok { choices := [{ content := "", toolCalls := [] }] }

/-- Two capabilities registered under the same name, distinguishable by
description. -/
def dupToolA : Tool :=
  { name := "dup", description := "first", parametersSchema := "s",
    call := fun _ => .ok "" }

/-- The later registration under the duplicated name. -/
def dupToolB : Tool :=
  { name := "dup", description := "second", parametersSchema := "s",
    call := fun _ => .ok "" }

/-- A raw backend title of 81 characters whose 80th character is a
double quote: 79 letters, a quote, a letter. -/
def badTitleRaw : String :=
  String.mk (List.replicate 79 'a' ++ [Char.ofNat 34, 'a'])

/- Helper lemmas. -/

/-- A character of a trimmed list is a character of the original list. -/
theorem mem_trimBothBy {p : Char → Bool} {l : List Char} {c : Char}
    (h : c ∈ trimBothBy p l) : c ∈ l := by
  unfold trimBothBy at h
  rw [List.mem_reverse] at h
  have h1 := (List.dropWhile_sublist p (l := (l.dropWhile p).reverse)).subset h
  rw [List.mem_reverse] at h1
  exact (List.dropWhile_sublist p (l := l)).subset h1

/-- The head of a `dropWhile` result falsifies the predicate. -/
theorem dropWhile_eq_cons_pred_false {p : Char → Bool} :
    ∀ {l : List Char} {x : Char} {xs : List Char},
      l.dropWhile p = x :: xs → p x = false := by
  intro l
  induction l with
  | nil => intro x xs h; simp [List.dropWhile] at h
  | cons a t ih =>
      intro x xs h
      rw [List.dropWhile_cons] at h
      by_cases ha : p a = true
      · rw [if_pos ha] at h; exact ih h
      · rw [if_neg ha] at h
        cases h
        simpa using ha

/-- `dropWhile` never consumes a final element that falsifies the
predicate. -/
theorem dropWhile_append_singleton {p : Char → Bool} {x : Char}
    (hx : p x = false) :
    ∀ ys : List Char, (ys ++ [x]).dropWhile p = ys.dropWhile p ++ [x] := by
  intro ys
  induction ys with
  | nil => simp [List.dropWhile, hx]
  | cons a t ih =>
      rw [List.cons_append, List.dropWhile_cons, List.dropWhile_cons]
      by_cases ha : p a = true
      · rw [if_pos ha, if_pos ha, ih]
      · rw [if_neg ha, if_neg ha, List.cons_append]

/-- Trimming from both ends keeps the head produced by the first
(leading) trim. -/
theorem trimBothBy_of_dropWhile_cons {p : Char → Bool} {l : List Char}
    {x : Char} {xs : List Char} (h : l.dropWhile p = x :: xs) :
    trimBothBy p l = x :: (xs.reverse.dropWhile p).reverse := by
  have hx : p x = false := dropWhile_eq_cons_pred_false h
  unfold trimBothBy
  rw [h, List.reverse_cons, dropWhile_append_singleton hx,
    List.reverse_append, List.reverse_cons]
  simp

/-- The last element of a trimmed list falsifies the predicate. -/
theorem getLast?_trimBothBy {p : Char → Bool} {l : List Char} {c : Char}
    (h : (trimBothBy p l).getLast? = some c) : p c = false := by
  unfold trimBothBy at h
  rw [List.getLast?_reverse] at h
  rcases he : ((l.dropWhile p).reverse.dropWhile p) with _ | ⟨x, xs⟩
  · rw [he] at h; simp at h
  · rw [he] at h
    simp at h
    cases h
    exact dropWhile_eq_cons_pred_false he

/-- The newline-collapsing step leaves no newline character. -/
theorem newline_not_mem_replaceNewlines (s : String) :
    '\n' ∉ (replaceNewlines s).toList := by
  intro h
  have h2 : '\n' ∈ s.toList.map (fun c => if c = '\n' then ' ' else c) := h
  rw [List.mem_map] at h2
  rcases h2 with ⟨c, _, hc⟩
  by_cases hcn : c = '\n'
  · rw [if_pos hcn] at hc; exact absurd hc (by decide)
  · rw [if_neg hcn] at hc; exact hcn hc

/-- A generic fold-append characterization: a fold whose step appends a
per-element optional message equals the accumulator followed by the
filterMap of the elements. -/
theorem foldl_append_filterMap {α β : Type}
    (f : List β → α → List β) (g : α → Option β)
    (hf : ∀ acc m, f acc m = acc ++ (g m).toList) :
    ∀ (ms : List α) (acc : List β),
      ms.foldl f acc = acc ++ ms.filterMap g := by
  intro ms
  induction ms with
  | nil => intro acc; simp
  | cons m rest ih =>
      intro acc
      rw [List.foldl_cons, hf, ih, List.filterMap_cons]
      rcases hg : g m with _ | b
      · simp [hg]
      · simp [hg]

/-- The empty string trims to the empty string. -/
theorem goTrimSpace_empty : goTrimSpace "" = "" := rfl

/-- The scan of Title's selection loop agrees with an in-order `find?`. -/
theorem firstUserScan_eq_find? (msgs : List Message) :
    firstUserScan msgs =
      match msgs.find? isMeaningfulUser with
      | some m => m.content
      | none => "" := by
  induction msgs with
  | nil => rfl
  | cons m rest ih =>
      rw [firstUserScan, List.find?_cons]
      rcases hp : isMeaningfulUser m
      · simp [hp, ih]
      · simp [hp]

/-- The dispatch loop of a round appends exactly one tool message per
ToolCall, in issue order. -/
theorem foldl_processCall (parse : Parser) (registry : Registry)
    (msgs : List ChatParam) (calls : List ToolCall) :
    calls.foldl (processCall parse registry) msgs =
      msgs ++ calls.map (toolResult parse registry) := by
  induction calls generalizing msgs with
  | nil => simp
  | cons c rest ih =>
      rw [List.foldl_cons, ih]
      simp [processCall]

/-- Every per-call result message is a tool message carrying the
originating call's correlation id. -/
theorem correlId_toolResult (parse : Parser) (registry : Registry)
    (call : ToolCall) :
    correlId (toolResult parse registry call) = some call.id := by
  unfold toolResult
  split
  · rfl
  · split
    · rfl
    · split <;> rfl

/-- The round loop consults the backend only at call indexes below
`round + fuel`. -/
theorem replyLoop_congr (b₁ b₂ : Backend) (parse : Parser)
    (registry : Registry) :
    ∀ (fuel round : Nat) (msgs : List ChatParam),
      (∀ i ms td, i < round + fuel → b₁ i ms td = b₂ i ms td) →
      replyLoop b₁ parse registry fuel round msgs =
        replyLoop b₂ parse registry fuel round msgs := by
  intro fuel
  induction fuel with
  | zero => intro round msgs _; rfl
  | succ n ih =>
      intro round msgs h
      rw [replyLoop, replyLoop, h round msgs (toolDefs registry) (by omega)]
      rcases hb : b₂ round msgs (toolDefs registry) with e | resp
      · rfl
      · rcases hc : resp.choices with _ | ⟨choice, rest⟩
        · simp [hc]
        · simp only [hc]
          by_cases hn : choice.toolCalls.length = 0
          · simp [hn]
          · simp only [if_neg hn]
            exact ih (round + 1) _ (fun i ms td hi => h i ms td (by omega))

/-- When the backend requests tool calls at every round the loop can
reach, the loop exhausts its fuel and fails with the round-limit
error. -/
theorem replyLoop_all_toolcalls (b : Backend) (parse : Parser)
    (registry : Registry) :
    ∀ (fuel round : Nat) (msgs : List ChatParam),
      (∀ i ms td, i < round + fuel →
        ∃ c cs, b i ms td = .ok { choices := c :: cs } ∧ c.toolCalls ≠ []) →
      replyLoop b parse registry fuel round msgs =
        .error "too many tool calls, unable to generate reply" := by
  intro fuel
  induction fuel with
  | zero => intro round msgs _; rfl
  | succ n ih =>
      intro round msgs h
      rcases h round msgs (toolDefs registry) (by omega) with ⟨c, cs, hb, hne⟩
      rw [replyLoop, hb]
      have hlen : ¬ c.toolCalls.length = 0 := by
        simpa [List.length_eq_zero] using hne
      simp only [hlen, if_neg hlen]
      exact ih (round + 1) _ (fun i ms td hi => h i ms td (by omega))

/-- A loop with fuel left propagates a backend failure as its own
failure. -/
theorem replyLoop_backend_error (b : Backend) (parse : Parser)
    (registry : Registry) (e : String) (fuel round : Nat)
    (msgs : List ChatParam) (hf : fuel ≠ 0)
    (hb : b round msgs (toolDefs registry) = .error e) :
    replyLoop b parse registry fuel round msgs = .error e := by
  cases fuel with
  | zero => exact absurd rfl hf
  | succ n => rw [replyLoop, hb]

/-- A loop with fuel left fails on a zero-choice response. -/
theorem replyLoop_zero_choices (b : Backend) (parse : Parser)
    (registry : Registry) (fuel round : Nat) (msgs : List ChatParam)
    (hf : fuel ≠ 0)
    (hb : b round msgs (toolDefs registry) = .ok { choices := [] }) :
    replyLoop b parse registry fuel round msgs =
      .error "no choices returned by OpenAI" := by
  cases fuel with
  | zero => exact absurd rfl hf
  | succ n => rw [replyLoop, hb]

/-- A loop with fuel left returns the first choice's content when that
choice carries no tool calls. -/
theorem replyLoop_done (b : Backend) (parse : Parser) (registry : Registry)
    (fuel round : Nat) (msgs : List ChatParam) (choice : ChatMessage)
    (rest : List ChatMessage) (hf : fuel ≠ 0)
    (hb : b round msgs (toolDefs registry) = .ok { choices := choice :: rest })
    (hc : choice.toolCalls = []) :
    replyLoop b parse registry fuel round msgs = .ok choice.content := by
  cases fuel with
  | zero => exact absurd rfl hf
  | succ n => rw [replyLoop, hb]; simp [hc]

/-- Taking a positive number of elements preserves the head. -/
theorem head?_take {α : Type} {l : List α} {n : Nat} (h : n ≠ 0) :
    (l.take n).head? = l.head? := by
  cases l with
  | nil => simp
  | cons a t =>
      cases n with
      | zero => exact absurd rfl h
      | succ m => simp

/-- Bool-level containment transfers to non-membership. -/
theorem not_mem_of_contains_eq_false {l : List Char} {c : Char}
    (h : l.contains c = false) : c ∉ l := by
  intro hm
  have h2 : List.elem c l = true := List.elem_eq_true_of_mem hm
  have h3 : l.contains c = List.elem c l := rfl
  rw [h3, h2] at h
  exact Bool.noConfusion h

/-- The selection the code performs agrees with the specification's
selection rule. -/
theorem selectFirstUserMessage_eq_spec (msgs : List Message) :
    selectFirstUserMessage msgs = selectFirstUserMessageSpec msgs := by
  unfold selectFirstUserMessage selectFirstUserMessageSpec
  rw [firstUserScan_eq_find?]
  rcases hf : msgs.find? isMeaningfulUser with _ | m
  · simp
  · have hp := List.find?_some hf
    have hne : goTrimSpace m.content ≠ "" := by
      unfold isMeaningfulUser at hp
      simp only [Bool.and_eq_true, decide_eq_true_eq] at hp
      exact hp.2
    have hc : m.content ≠ "" := fun he => hne (by rw [he]; rfl)
    simp [hc]

/-- A found element satisfies the search predicate. -/
theorem all_find? {α : Type} (p : α → Bool) (l : List α) :
    (l.find? p).all p = true := by
  rcases hf : l.find? p with _ | a
  · rfl
  · simpa using List.find?_some hf

/- Claim theorems. -/

/-- C1 counterexample: for a conversation containing a prior tool
message, the initial message list Reply builds omits that tool message,
whereas the claimed construction (all prior messages role-mapped, tool
messages included verbatim) retains it — so the claim fails on this
input. -/
theorem initialMsgs_drops_tool_message :
    initialMsgs convToolW = [ChatParam.system replyPrompt, ChatParam.user "hi"]
    ∧ initialMsgsClaim convToolW =
        [ChatParam.system replyPrompt, ChatParam.user "hi",
         ChatParam.tool "result" "call-1"]
    ∧ initialMsgs convToolW ≠ initialMsgsClaim convToolW := by
  refine ⟨rfl, rfl, ?_⟩
  decide

/-- C1 (amended): the initial message list Reply sends to the model
backend equals the system instruction message followed by the prior
Conversation messages whose role is user or assistant, in order,
role-mapped; messages of any other role (tool, system) are omitted. -/
theorem initialMsgs_role_filtered (conv : Conversation) :
    initialMsgs conv = ChatParam.system replyPrompt ::
      conv.messages.filterMap (fun m =>
        match m.role with
        | Role.user => some (ChatParam.user m.content)
        | Role.assistant => some (ChatParam.assistant m.content)
        | _ => none) := by
  suffices h : ∀ (ms : List Message) (acc : List ChatParam),
      ms.foldl
        (fun msgs m =>
          match m.role with
          | Role.user => msgs ++ [ChatParam.user m.content]
          | Role.assistant => msgs ++ [ChatParam.assistant m.content]
          | _ => msgs) acc =
      acc ++ ms.filterMap (fun m =>
        match m.role with
        | Role.user => some (ChatParam.user m.content)
        | Role.assistant => some (ChatParam.assistant m.content)
        | _ => none) by
    exact h conv.messages [ChatParam.system replyPrompt]
  intro ms
  induction ms with
  | nil => intro acc; simp
  | cons m rest ih =>
      intro acc
      rw [List.foldl_cons]
      cases hm : m.role <;> simp [hm, ih]

/-- C5: in the StartConversation coordinator, a Title failure or a blank
Title result is replaced by the fixed fallback label "Untitled
conversation" and never fails the coordinated operation, whereas a Reply
failure makes the whole coordinated operation fail with an internal-error
condition (and no updated conversation is produced for persistence). -/
theorem start_conversation_merge_policy (titleRes : Except String String)
    (conv : Conversation) (e title reply : String)
    (hblank : goTrimSpace title = "") :
    mergedTitle (.error e) = "Untitled conversation"
    ∧ mergedTitle (.ok title) = "Untitled conversation"
    ∧ startConversation titleRes (.error e) conv =
        .error (internalErrorWith e)
    ∧ startConversation titleRes (.ok reply) conv =
        .ok { conv with
              title := mergedTitle titleRes,
              messages := conv.messages ++
                [{ role := Role.assistant, content := reply }] } := by
  refine ⟨rfl, ?_, rfl, rfl⟩
  simp [mergedTitle, hblank]

/-- Witness for the coordinator merge policy at concrete outcomes: a
blank title " " and explicit error and reply values. -/
theorem start_conversation_merge_policy_witness :
    mergedTitle (.error "down") = "Untitled conversation"
    ∧ mergedTitle (.ok " ") = "Untitled conversation"
    ∧ startConversation (.ok " ") (.error "down") convW =
        .error (internalErrorWith "down")
    ∧ startConversation (.ok " ") (.ok "sunny") convW =
        .ok { convW with
              title := mergedTitle (.ok " "),
              messages := convW.messages ++
                [{ role := Role.assistant, content := "sunny" }] } :=
  start_conversation_merge_policy (.ok " ") convW "down" " " "sunny" rfl

/-- C7: for every conversation with zero messages, Title returns the
fixed empty-conversation fallback label with no error (an `.ok` result),
independently of the backend oracle — no model-backend call is made. -/
theorem title_empty_conversation (backend : TitleBackend)
    (conv : Conversation) (h : conv.messages = []) :
    Title backend conv = .ok "An empty conversation" := by
  simp [Title, h]

/-- Witness for the empty-conversation Title theorem at a failing
backend and the empty conversation. -/
theorem title_empty_conversation_witness :
    Title (fun _ => .error "down") { messages := [] } =
      .ok "An empty conversation" :=
  title_empty_conversation (fun _ => .error "down") { messages := [] } rfl

/-- C9 (amended): registry lookup by name equals the in-order first
exact-name match (`find?` with name equality) — so it matches only on
exact name equality, signals not-found (`none`) when no registered
capability has that exact name, and under duplicate names returns the
one from the EARLIEST registration (first registration wins, per the
stored order); moreover any found capability's name equals the query. -/
theorem findByName_exact_first_match (registry : Registry) (name : String) :
    FindByName registry name = registry.find? (fun t => t.name = name)
    ∧ (FindByName registry name).all (fun t => t.name = name) = true := by
  have h1 : FindByName registry name =
      registry.find? (fun t => t.name = name) := by
    induction registry with
    | nil => rfl
    | cons t ts ih =>
        rw [FindByName, List.find?_cons]
        by_cases h : t.name = name
        · simp [h]
        · simp [h, ih]
  refine ⟨h1, ?_⟩
  rw [h1]
  exact all_find? _ registry

/-- C9 counterexample: two capabilities registered under the same name;
lookup returns the capability from the FIRST registration (description
"first"), not from the last ("second") as the claim states. -/
theorem findByName_duplicate_first_wins :
    (FindByName (Register (Register [] dupToolA) dupToolB) "dup").map
        Tool.description = some "first"
    ∧ dupToolA.description = "first"
    ∧ dupToolB.description = "second" :=
  ⟨rfl, rfl, rfl⟩

/-- C10: if at the first round the model backend returns a choice whose
message carries zero tool calls, Reply succeeds with exactly that
message's content — including the empty string, which is a successful
(`.ok`) outcome. -/
theorem reply_tool_call_free_round (b : Backend) (parse : Parser)
    (registry : Registry) (conv : Conversation)
    (h : conv.messages.length ≠ 0) (choice : ChatMessage)
    (rest : List ChatMessage)
    (hb : b 0 (initialMsgs conv) (toolDefs registry) =
      .ok { choices := choice :: rest })
    (hc : choice.toolCalls = []) :
    Reply b parse registry conv = .ok choice.content := by
  rw [Reply, if_neg h]
  exact replyLoop_done b parse registry 15 0 _ choice rest (by decide) hb hc

/-- Witness for the tool-call-free round theorem: a backend answering
with an empty-content, tool-call-free message makes Reply succeed with
the empty string. -/
theorem reply_tool_call_free_round_witness :
    Reply backendEmptyReplyW parserW [] convW = .ok "" :=
  reply_tool_call_free_round backendEmptyReplyW parserW [] convW
    (by decide) { content := "", toolCalls := [] } [] rfl rfl

/-- C4: for the same backend outcome — a failed call or a zero-choice
response — Title returns "New conversation" with no error (`.ok`), while
Reply on a non-empty conversation returns a fatal error: the failure it
received, or the distinct zero-choice error. -/
theorem title_reply_backend_asymmetry (e : String) (parse : Parser)
    (registry : Registry) (conv : Conversation)
    (h : conv.messages.length ≠ 0) :
    Title (fun _ => .error e) conv = .ok "New conversation"
    ∧ Title (fun _ => .ok { choices := [] }) conv = .ok "New conversation"
    ∧ Reply (fun _ _ _ => .error e) parse registry conv = .error e
    ∧ Reply (fun _ _ _ => .ok { choices := [] }) parse registry conv =
        .error "no choices returned by OpenAI" := by
  refine ⟨?_, ?_, ?_, ?_⟩
  · simp [Title, h]
  · simp [Title, h]
  · rw [Reply, if_neg h]
    exact replyLoop_backend_error _ parse registry e 15 0 _ (by decide) rfl
  · rw [Reply, if_neg h]
    exact replyLoop_zero_choices _ parse registry 15 0 _ (by decide) rfl

/-- Witness for the backend-failure asymmetry theorem at a concrete
error, parser, registry and single-message conversation. -/
theorem title_reply_backend_asymmetry_witness :
    Title (fun _ => .error "down") convW = .ok "New conversation"
    ∧ Title (fun _ => .ok { choices := [] }) convW = .ok "New conversation"
    ∧ Reply (fun _ _ _ => .error "down") parserW [] convW = .error "down"
    ∧ Reply (fun _ _ _ => .ok { choices := [] }) parserW [] convW =
        .error "no choices returned by OpenAI" :=
  title_reply_backend_asymmetry "down" parserW [] convW (by decide)

/-- C2: Reply performs at most 15 rounds — its outcome depends on the
backend oracle only at call indexes below 15 — and if every round's
response carries tool calls, Reply terminates with the distinct
round-limit error rather than looping past the bound. -/
theorem reply_round_limit :
    (∀ (b : Backend) (parse : Parser) (registry : Registry)
        (conv : Conversation),
      conv.messages.length ≠ 0 →
      (∀ i ms td, i < 15 →
        ∃ c cs, b i ms td = .ok { choices := c :: cs } ∧ c.toolCalls ≠ []) →
      Reply b parse registry conv =
        .error "too many tool calls, unable to generate reply")
    ∧ (∀ (b₁ b₂ : Backend) (parse : Parser) (registry : Registry)
          (conv : Conversation),
        (∀ i ms td, i < 15 → b₁ i ms td = b₂ i ms td) →
        Reply b₁ parse registry conv = Reply b₂ parse registry conv) := by
  constructor
  · intro b parse registry conv h hall
    rw [Reply, if_neg h]
    exact replyLoop_all_toolcalls b parse registry 15 0 _
      (fun i ms td hi => hall i ms td (by omega))
  · intro b₁ b₂ parse registry conv h
    rw [Reply, Reply]
    by_cases hc : conv.messages.length = 0
    · rw [if_pos hc, if_pos hc]
    · rw [if_neg hc, if_neg hc]
      exact replyLoop_congr b₁ b₂ parse registry 15 0 _
        (fun i ms td hi => h i ms td (by omega))

/-- Witness for the round-limit theorem: a backend that always requests
one tool call drives Reply into the round-limit error, and Reply cannot
distinguish that backend from one that differs only from call index 15
onwards. -/
theorem reply_round_limit_witness :
    Reply backendLoopW parserW [] convW =
      .error "too many tool calls, unable to generate reply"
    ∧ Reply backendLoopW parserW [] convW =
        Reply backendLateW parserW [] convW := by
  constructor
  · exact reply_round_limit.1 backendLoopW parserW [] convW (by decide)
      (fun i ms td hi =>
        ⟨{ content := "", toolCalls := [{ id := "id1", name := "t", arguments := "x" }] },
         [], rfl, by decide⟩)
  · exact reply_round_limit.2 backendLoopW backendLateW parserW [] convW
      (fun i ms td hi => by simp [backendLateW, hi])

/-- C8: for every non-empty conversation, the user-message text Title
sends to the backend is the content of the first message whose role is
user and whose content is non-blank, scanning in order, falling back to
the very first message's content when no such message exists — the
code's selection equals the specification's selection rule, and Title's
backend call carries exactly that text. -/
theorem title_first_user_selection (backend : TitleBackend)
    (conv : Conversation) (h : conv.messages.length ≠ 0) :
    selectFirstUserMessage conv.messages =
      selectFirstUserMessageSpec conv.messages
    ∧ Title backend conv =
        (match backend [ChatParam.system titlePrompt,
                        ChatParam.user (selectFirstUserMessageSpec conv.messages)] with
         | .error _ => .ok "New conversation"
         | .ok resp =>
             match resp.choices with
             | [] => .ok "New conversation"
             | choice :: _ => .ok (postProcessTitle choice.content)) := by
  refine ⟨selectFirstUserMessage_eq_spec conv.messages, ?_⟩
  rw [Title, if_neg h, selectFirstUserMessage_eq_spec conv.messages]

/-- Witness for the Title input-selection theorem: a conversation whose
first user message follows a blank user message and an assistant
message. -/
theorem title_first_user_selection_witness :
    selectFirstUserMessage
        [{ role := Role.assistant, content := "a" },
         { role := Role.user, content := " " },
         { role := Role.user, content := "q" }] =
      selectFirstUserMessageSpec
        [{ role := Role.assistant, content := "a" },
         { role := Role.user, content := " " },
         { role := Role.user, content := "q" }]
    ∧ Title (fun _ => .error "down")
        { messages :=
            [{ role := Role.assistant, content := "a" },
             { role := Role.user, content := " " },
             { role := Role.user, content := "q" }] } =
        (match (fun _ => Except.error "down" :
                  TitleBackend) [ChatParam.system titlePrompt,
                    ChatParam.user (selectFirstUserMessageSpec
                      [{ role := Role.assistant, content := "a" },
                       { role := Role.user, content := " " },
                       { role := Role.user, content := "q" }])] with
         | .error _ => .ok "New conversation"
         | .ok resp =>
             match resp.choices with
             | [] => .ok "New conversation"
             | choice :: _ => .ok (postProcessTitle choice.content)) :=
  title_first_user_selection (fun _ => .error "down")
    { messages :=
        [{ role := Role.assistant, content := "a" },
         { role := Role.user, content := " " },
         { role := Role.user, content := "q" }] } (by decide)

/-- C3: within every round of Reply, the dispatch loop appends exactly
one tool message per ToolCall of the assistant's tool-call-bearing
message, in the order the ToolCalls were issued, each carrying its
originating call's correlation id; the round proceeds to the next loop
iteration with the running list extended by the assistant message and
those tool messages — and an unknown tool name, an argument-parse
failure, and a tool invocation error each produce such a tool message
(with the respective error text) without aborting the round or the
loop. -/
theorem tool_dispatch_per_call (parse : Parser) (registry : Registry) :
    (∀ (msgs : List ChatParam) (calls : List ToolCall),
        calls.foldl (processCall parse registry) msgs =
          msgs ++ calls.map (toolResult parse registry))
    ∧ (∀ calls : List ToolCall,
        (calls.map (toolResult parse registry)).map correlId =
          calls.map (fun c => some c.id))
    ∧ (∀ (b : Backend) (fuel round : Nat) (msgs : List ChatParam)
          (content : String) (calls : List ToolCall)
          (rest : List ChatMessage),
        b round msgs (toolDefs registry) =
          .ok { choices := { content := content, toolCalls := calls } :: rest } →
        calls ≠ [] →
        replyLoop b parse registry (fuel + 1) round msgs =
          replyLoop b parse registry fuel (round + 1)
            ((msgs ++ [ChatParam.assistantToolCalls content calls]) ++
              calls.map (toolResult parse registry)))
    ∧ (∀ call : ToolCall, FindByName registry call.name = none →
        toolResult parse registry call =
          ChatParam.tool ("unknown tool: " ++ call.name) call.id)
    ∧ (∀ (call : ToolCall) (t : Tool) (e : String),
        FindByName registry call.name = some t →
        parse call.arguments = .error e →
        toolResult parse registry call =
          ChatParam.tool ("failed to parse tool arguments: " ++ e) call.id)
    ∧ (∀ (call : ToolCall) (t : Tool) (args : Args) (e : String),
        FindByName registry call.name = some t →
        parse call.arguments = .ok args →
        t.call args = .error e →
        toolResult parse registry call =
          ChatParam.tool ("tool error: " ++ e) call.id) := by
  refine ⟨foldl_processCall parse registry, ?_, ?_, ?_, ?_, ?_⟩
  · intro calls
    rw [List.map_map]
    exact List.map_congr_left
      (fun c _ => correlId_toolResult parse registry c)
  · intro b fuel round msgs content calls rest hb hne
    rw [replyLoop, hb]
    have hlen : ¬ (({ content := content, toolCalls := calls } :
        ChatMessage).toolCalls.length = 0) := by
      simpa [List.length_eq_zero] using hne
    simp only [if_neg hlen]
    rw [foldl_processCall]
  · intro call hnone
    unfold toolResult
    rw [hnone]
  · intro call t e hfind hparse
    unfold toolResult
    rw [hfind, hparse]
  · intro call t args e hfind hparse hcall
    simp only [toolResult, hfind, hparse, hcall]

/-- Witness for the per-call dispatch theorem: a four-call round
exercising the unknown-tool, parse-failure, invocation-error and success
branches against the fixture registry and parser. -/
theorem tool_dispatch_per_call_witness :
    ([{ id := "id1", name := "nope", arguments := "x" },
      { id := "id2", name := "adder", arguments := "bad" },
      { id := "id3", name := "boomer", arguments := "x" },
      { id := "id4", name := "adder", arguments := "x" }] :
        List ToolCall).foldl (processCall parserW registryW)
        [ChatParam.system replyPrompt] =
      [ChatParam.system replyPrompt] ++
        ([{ id := "id1", name := "nope", arguments := "x" },
          { id := "id2", name := "adder", arguments := "bad" },
          { id := "id3", name := "boomer", arguments := "x" },
          { id := "id4", name := "adder", arguments := "x" }] :
            List ToolCall).map (toolResult parserW registryW)
    ∧ (([{ id := "id1", name := "nope", arguments := "x" },
         { id := "id4", name := "adder", arguments := "x" }] :
           List ToolCall).map (toolResult parserW registryW)).map correlId =
        [some "id1", some "id4"]
    ∧ replyLoop backendLoopW parserW registryW (3 + 1) 0 [] =
        replyLoop backendLoopW parserW registryW 3 (0 + 1)
          (([] ++ [ChatParam.assistantToolCalls ""
              [{ id := "id1", name := "t", arguments := "x" }]]) ++
            ([{ id := "id1", name := "t", arguments := "x" }] :
              List ToolCall).map (toolResult parserW registryW))
    ∧ toolResult parserW registryW { id := "id1", name := "nope", arguments := "x" } =
        ChatParam.tool ("unknown tool: " ++ "nope") "id1"
    ∧ toolResult parserW registryW { id := "id2", name := "adder", arguments := "bad" } =
        ChatParam.tool ("failed to parse tool arguments: " ++ "bad json") "id2"
    ∧ toolResult parserW registryW { id := "id3", name := "boomer", arguments := "x" } =
        ChatParam.tool ("tool error: " ++ "boom") "id3" := by
  refine ⟨(tool_dispatch_per_call parserW registryW).1 _ _, ?_, ?_, ?_, ?_, ?_⟩
  · exact ((tool_dispatch_per_call parserW registryW).2.1 _).trans (by decide)
  · exact (tool_dispatch_per_call parserW registryW).2.2.1 backendLoopW 3 0 []
      "" [{ id := "id1", name := "t", arguments := "x" }] [] rfl (by decide)
  · exact (tool_dispatch_per_call parserW registryW).2.2.2.1 _ rfl
  · exact (tool_dispatch_per_call parserW registryW).2.2.2.2.1 _ toolOkW "bad json" rfl rfl
  · exact (tool_dispatch_per_call parserW registryW).2.2.2.2.2 _ toolErrW [] "boom" rfl rfl rfl

/-- C6 (amended): for every raw string the backend may return as the
title, the post-processed output contains no newline, has length at most
80 characters, and never BEGINS with a quote (or any other trim-cutset)
character; and whenever the trimmed text already fits within 80
characters — so no truncation occurs — it also does not END with a quote
(or other cutset) character. The 80-character truncation can expose a
trailing quote, so the unconditional no-trailing-quote claim fails (see
the counterexample). -/
theorem title_postprocess_shape (raw : String) :
    '\n' ∉ (postProcessTitle raw).toList
    ∧ (postProcessTitle raw).length ≤ 80
    ∧ (postProcessTitle raw).toList.head?.getD 'N' ∉ titleCutset
    ∧ ((goTrim (replaceNewlines raw) titleCutset).length ≤ 80 →
        (postProcessTitle raw).toList.getLast?.getD 'N' ∉ titleCutset) := by
  by_cases h0 : goTrim (replaceNewlines raw) titleCutset = ""
  · have hpp : postProcessTitle raw = "New conversation" := by
      rw [postProcessTitle, if_pos h0]
    rw [hpp]
    exact ⟨by decide, by decide, by decide, fun _ => by decide⟩
  · rcases hdw : (replaceNewlines raw).toList.dropWhile
        (fun c => titleCutset.contains c) with _ | ⟨x, xs⟩
    · exfalso
      apply h0
      have he : trimBothBy (fun c => titleCutset.contains c)
          (replaceNewlines raw).toList = [] := by
        unfold trimBothBy
        rw [hdw]
        rfl
      show String.mk (trimBothBy (fun c => titleCutset.contains c)
        (replaceNewlines raw).toList) = ""
      rw [he]
    · have px : (titleCutset.contains x) = false :=
        dropWhile_eq_cons_pred_false hdw
      have hxmem : x ∉ titleCutset := not_mem_of_contains_eq_false px
      have htl : trimBothBy (fun c => titleCutset.contains c)
          (replaceNewlines raw).toList =
          x :: (xs.reverse.dropWhile (fun c => titleCutset.contains c)).reverse :=
        trimBothBy_of_dropWhile_cons hdw
      have htol : (goTrim (replaceNewlines raw) titleCutset).toList =
          trimBothBy (fun c => titleCutset.contains c)
            (replaceNewlines raw).toList := rfl
      have hnl : ∀ c ∈ (goTrim (replaceNewlines raw) titleCutset).toList,
          c ∈ (replaceNewlines raw).toList := by
        intro c hc
        rw [htol] at hc
        exact mem_trimBothBy hc
      by_cases h80 : (goTrim (replaceNewlines raw) titleCutset).length > 80
      · have hpp : postProcessTitle raw =
            String.mk ((goTrim (replaceNewlines raw) titleCutset).toList.take 80) := by
          rw [postProcessTitle, if_neg h0, if_pos h80]
        rw [hpp]
        refine ⟨?_, ?_, ?_, ?_⟩
        · intro hmem
          have hm2 : '\n' ∈ (goTrim (replaceNewlines raw) titleCutset).toList :=
            (List.take_sublist 80 _).subset hmem
          exact newline_not_mem_replaceNewlines raw (hnl _ hm2)
        · show ((goTrim (replaceNewlines raw) titleCutset).toList.take 80).length ≤ 80
          rw [List.length_take]
          exact Nat.min_le_left _ _
        · have hh : ((goTrim (replaceNewlines raw) titleCutset).toList.take 80).head? =
              (goTrim (replaceNewlines raw) titleCutset).toList.head? :=
            head?_take (by decide)
          show (((goTrim (replaceNewlines raw) titleCutset).toList.take 80).head?).getD 'N' ∉ titleCutset
          rw [hh, htol, htl]
          simpa using hxmem
        · intro hle
          exact absurd hle (by omega)
      · have hpp : postProcessTitle raw =
            goTrim (replaceNewlines raw) titleCutset := by
          rw [postProcessTitle, if_neg h0, if_neg h80]
        rw [hpp]
        refine ⟨?_, ?_, ?_, ?_⟩
        · intro hmem
          exact newline_not_mem_replaceNewlines raw (hnl _ hmem)
        · omega
        · rw [htol, htl]
          simpa using hxmem
        · intro _
          rcases hg : (goTrim (replaceNewlines raw) titleCutset).toList.getLast?
            with _ | c
          · decide
          · have hcf : (titleCutset.contains c) = false := by
              apply getLast?_trimBothBy
              rw [← htol]
              exact hg
            simpa using not_mem_of_contains_eq_false hcf

/-- Witness for the post-processing shape theorem at a concrete quoted,
newline-carrying raw title, with the no-truncation hypothesis
discharged. -/
theorem title_postprocess_shape_witness :
    '\n' ∉ (postProcessTitle "  \"hello\"\n ").toList
    ∧ (postProcessTitle "  \"hello\"\n ").length ≤ 80
    ∧ (postProcessTitle "  \"hello\"\n ").toList.head?.getD 'N' ∉ titleCutset
    ∧ (postProcessTitle "  \"hello\"\n ").toList.getLast?.getD 'N' ∉ titleCutset := by
  refine ⟨(title_postprocess_shape _).1, (title_postprocess_shape _).2.1,
    (title_postprocess_shape _).2.2.1, (title_postprocess_shape _).2.2.2 ?_⟩
  decide

/-- C6 counterexample: an 81-character raw title — 79 letters, then a
double quote, then a letter — is unchanged by newline collapsing and
trimming (both ends are letters), and the 80-character truncation then
makes the output END with the double quote, so the claim that Title's
output never ends with a quote character fails at this input. -/
theorem title_postprocess_quote_after_truncation :
    (postProcessTitle badTitleRaw).toList.getLast? = some (Char.ofNat 34)
    ∧ Char.ofNat 34 ∈ titleCutset := by
  constructor
  · decide
  · decide

end Acai
